import Mathlib

/-!
Verification development for the DollarBill ML scoring scripts.

The definitions below are a shallow embedding of the Python sources
`src/ml/signal_classifier.py`, `src/ml/volatility_predictor.py` and the
options fetchers (`src/py/fetch_options.py`, `src/fetch_multi_options.py`).
Machine floats are modelled by exact rationals; the fitted scikit-learn
objects (StandardScaler, RandomForestClassifier, the Keras network and the
MinMaxScaler) are opaque to the scripts and are modelled as records of
abstract functions on rational feature vectors.  Fallible Python code
(raised exceptions) is modelled with `Option`/`Except`.
-/

namespace DollarBill

/-! ## Signal classifier data model (`src/ml/signal_classifier.py`) -/

/-- Opaque fitted `StandardScaler`: the scripts only ever call its
`transform` method on a feature row. -/
structure Scaler where
  transform : List ℚ → List ℚ

/-- Opaque fitted `RandomForestClassifier`: `predictProba1 x` is
`predict_proba(x)[0][1]` (the probability of class 1, "profitable") and
`predictLabel x` is `bool(predict(x)[0])`. -/
structure RFModel where
  predictProba1 : List ℚ → ℚ
  predictLabel : List ℚ → Bool

/-- Result dictionary returned by `SignalClassifier.predict`
(`signal_classifier.py` lines 166-170). -/
structure ClassResult where
  is_profitable : Bool
  confidence : ℚ
  recommendation : String
deriving DecidableEq, Repr

/-- In-memory state of a `SignalClassifier` object: the `model`, `scaler`
and `is_trained` attributes set in `__init__` / `train`. -/
structure SignalClassifier where
  model : Option RFModel
  scaler : Option Scaler
  is_trained : Bool

/-- The fixed feature column order (`feature_cols` in both `train` and
`predict`, `signal_classifier.py` lines 98-99 and 153-154). -/
def featureCols : List String :=
  ["edge_percent", "delta", "gamma", "vega", "theta",
   "volume", "open_interest", "days_to_expiry"]

/-- A loosely typed input record: a Python dict of named numeric fields,
with its (insertion) order. -/
abbrev FeatureMap := List (String × ℚ)

/-- Dictionary lookup by key, as pandas does when a column name is used to
index a DataFrame built from a dict. -/
def plookup (k : String) : FeatureMap → Option ℚ
  | [] => none
  | (a, v) :: rest => if a = k then some v else plookup k rest

/-- Column selection `pd.DataFrame([signal_features])[feature_cols]`
(`signal_classifier.py` line 155): each required column is looked up by
NAME; a missing column raises a `KeyError`, modelled as `none`. -/
def seqLookup : List String → FeatureMap → Option (List ℚ)
  | [], _ => some []
  | k :: ks, m =>
    match plookup k m, seqLookup ks m with
    | some v, some vs => some (v :: vs)
    | _, _ => none

/-- The fixed-order numeric feature row extracted from an input record. -/
def extractFeatures (m : FeatureMap) : Option (List ℚ) :=
  seqLookup featureCols m

/-- Model of `SignalClassifier.predict` (`signal_classifier.py` lines 143-170):
check `is_trained`, select the feature columns by name, scale, query the
model, and build the result dict with
`recommendation = TRADE if prob_profitable > 0.7 else AVOID`. -/
def predictC (c : SignalClassifier) (inp : FeatureMap) : Except String ClassResult :=
  if c.is_trained = false then
    .error "Model not trained. Call train() first."
  else
    match extractFeatures inp with
    | none => .error "KeyError: missing feature column"
    | some feats =>
      match c.scaler with
      | none => .error "AttributeError: scaler is None"
      | some sc =>
        match c.model with
        | none => .error "AttributeError: model is None"
        | some mdl =>
          .ok { is_profitable := mdl.predictLabel (sc.transform feats),
                confidence := mdl.predictProba1 (sc.transform feats),
                recommendation :=
                  if 7/10 < mdl.predictProba1 (sc.transform feats)
                  then "TRADE" else "AVOID" }

/-- Keep only the entries of a record whose key is one of the 8 feature
columns (the restriction of the input to the required fields). -/
def restrictToFeatures (m : FeatureMap) : FeatureMap :=
  m.filter (fun kv => decide (kv.1 ∈ featureCols))

/-! ## Synthetic training data generator
(`SignalClassifier.generate_training_data`, `signal_classifier.py`
lines 48-89).  The numpy global random generator is modelled as an
explicit threaded state; the individual distribution draws below are a
deterministic model of the numpy sampling routines (the exact bit
streams of the Mersenne twister are not reproduced — every property
proved about the generator is independent of the concrete draw values,
depending only on deterministic state threading). -/

/-- State of the numpy global random generator. -/
abbrev RngState := ℕ

/-- One step of the modelled generator (a 64-bit linear congruential map). -/
def rngNext (s : RngState) : RngState :=
  (6364136223846793005 * s + 1442695040888963407) % 2 ^ 64

/-- A uniform draw in [0,1) derived from the current state. -/
def rngUnit (s : RngState) : ℚ :=
  ((rngNext s % 2 ^ 32 : ℕ) : ℚ) / (2 ^ 32 : ℚ)

/-- Model of `np.random.seed(n)`: the global state is overwritten with a
value determined by `n` alone. -/
def npSeed (n : ℕ) : RngState := n

/-- Model of `np.random.normal(mu, sigma)`. -/
def drawNormal (mu sigma : ℚ) (s : RngState) : ℚ × RngState :=
  (mu + sigma * (2 * rngUnit s - 1), rngNext s)

/-- Model of `np.random.poisson(lam)`. -/
def drawPoisson (lam : ℚ) (s : RngState) : ℚ × RngState :=
  ((⌊lam * (1 + (2 * rngUnit s - 1) / 10)⌋ : ℤ), rngNext s)

/-- Model of `np.random.randint(lo, hi)`. -/
def drawRandint (lo hi : ℕ) (s : RngState) : ℚ × RngState :=
  (((lo + rngNext s % (hi - lo) : ℕ) : ℚ), rngNext s)

/-- Model of `np.random.random()`. -/
def drawUniform (s : RngState) : ℚ × RngState :=
  (rngUnit s, rngNext s)

/-- One row of the synthetic classifier corpus: the 8 features plus the
integer label `is_profitable` (`signal_classifier.py` lines 77-87). -/
structure TrainingSample where
  edge_percent : ℚ
  delta : ℚ
  gamma : ℚ
  vega : ℚ
  theta : ℚ
  volume : ℚ
  open_interest : ℚ
  days_to_expiry : ℚ
  is_profitable : ℕ
deriving DecidableEq, Repr

/-- One iteration of the sampling loop (`signal_classifier.py` lines
54-87): draw the 8 features, compute the weighted composite score with
each term capped at 1, and label `is_profitable = score > 0.5`. -/
def sampleStep (s0 : RngState) : TrainingSample × RngState :=
  let (edge, s1) := drawNormal 12 8 s0
  let (delta, s2) := drawNormal (1/2) (3/10) s1
  let (gamma, s3) := drawNormal (5/1000) (3/1000) s2
  let (vega, s4) := drawNormal 50 30 s3
  let (theta, s5) := drawNormal (-10) 5 s4
  let (volume, s6) := drawPoisson 1000 s5
  let (oi, s7) := drawPoisson 5000 s6
  let (dte, s8) := drawRandint 7 90 s7
  let (noise, s9) := drawUniform s8
  let score := 3/10 * min (edge / 20) 1
    + 2/10 * (1 - |delta - 1/2|)
    + 2/10 * min (volume / 2000) 1
    + 1/10 * min (oi / 10000) 1
    + 1/10 * min (dte / 60) 1
    + 1/10 * noise
  ({ edge_percent := edge, delta := delta, gamma := gamma, vega := vega,
     theta := theta, volume := volume, open_interest := oi,
     days_to_expiry := dte,
     is_profitable := if 1/2 < score then 1 else 0 }, s9)

/-- The sampling loop `for _ in range(num_samples)` appending one record
per iteration. -/
def genLoop : ℕ → RngState → List TrainingSample × RngState
  | 0, s => ([], s)
  | n + 1, s =>
    let (x, s1) := sampleStep s
    let (rest, s2) := genLoop n s1
    (x :: rest, s2)

/-- Model of `SignalClassifier.generate_training_data(num_samples)`
(`signal_classifier.py` lines 48-89): the first statement is
`np.random.seed(42)`, which discards the ambient generator state, after
which the corpus is produced by the deterministic loop. -/
def generateTrainingData (_ambient : RngState) (numSamples : ℕ) :
    List TrainingSample × RngState :=
  genLoop numSamples (npSeed 42)

/-! ## Feature construction from upstream market data
(`src/py/fetch_options.py` lines 51-73, `src/fetch_multi_options.py`
lines 60-81).  The yfinance DataFrame cells are IEEE floats that may be
NaN; a cell is modelled as either `nan` or an exact rational. -/

/-- A float cell of the upstream options chain: NaN or a number. -/
inductive PyFloat where
  | nan
  | num (q : ℚ)
deriving DecidableEq, Repr

/-- Python `==` on floats: `NaN == x` is false for every `x`, including
NaN itself — `row[v] == row[v]` is the NaN guard used by the fetchers. -/
def pyEq : PyFloat → PyFloat → Bool
  | .nan, _ => false
  | _, .nan => false
  | .num a, .num b => a == b

/-- Python `x > c` on a float cell: false when `x` is NaN. -/
def pyGt (x : PyFloat) (c : ℚ) : Bool :=
  match x with
  | .nan => false
  | .num a => decide (c < a)

/-- Python `int(x)`: truncation toward zero.  The `nan` branch is
unreachable in `processOptionRow` because every call there is guarded by
the `pyEq x x` NaN check. -/
def pyInt : PyFloat → ℤ
  | .nan => 0
  | .num q => q.num.tdiv (q.den : ℤ)

/-- One raw row of the fetched options chain. -/
structure RawOptionRow where
  strike : PyFloat
  bid : PyFloat
  ask : PyFloat
  volume : PyFloat
  openInterest : PyFloat

/-- One entry of the JSON written by the fetchers. -/
structure OptionEntry where
  strike : PyFloat
  bid : PyFloat
  ask : PyFloat
  volume : ℤ
  open_interest : ℤ
  option_type : String
deriving Repr

/-- Row conversion in the fetchers (`fetch_options.py` lines 51-60):
rows with non-positive (or NaN) bid or ask are skipped; `volume` and
`open_interest` are `int(row[f]) if row[f] == row[f] else 0`, i.e. NaN
liquidity values become 0; the other fields pass through unchanged. -/
def processOptionRow (r : RawOptionRow) (typ : String) : Option OptionEntry :=
  if pyGt r.bid 0 && pyGt r.ask 0 then
    some { strike := r.strike, bid := r.bid, ask := r.ask,
           volume := if pyEq r.volume r.volume then pyInt r.volume else 0,
           open_interest :=
             if pyEq r.openInterest r.openInterest then pyInt r.openInterest else 0,
           option_type := typ }
  else none

/-- A full 8-field classifier input record assembled from a processed
option entry, with the liquidity fields taken from the entry. -/
def mkSignalFeatures (edge delta gamma vega theta dte : ℚ)
    (e : OptionEntry) : FeatureMap :=
  [("edge_percent", edge), ("delta", delta), ("gamma", gamma),
   ("vega", vega), ("theta", theta), ("volume", (e.volume : ℚ)),
   ("open_interest", (e.open_interest : ℚ)), ("days_to_expiry", dte)]

/-! ## Volatility predictor data model
(`src/ml/volatility_predictor.py`).  A volatility surface is a table of
rows `(date, strike, implied_vol, volume)`; dates are modelled as
naturals (ISO date strings sort chronologically, so their sorted order
is the same). -/

/-- One row of the volatility surface CSV. -/
structure Row where
  date : ℕ
  strike : ℚ
  implied_vol : ℚ
  volume : ℚ
deriving DecidableEq, Repr

/-- Insertion into a sorted list of dates. -/
def insertSorted (d : ℕ) : List ℕ → List ℕ
  | [] => [d]
  | x :: xs => if d ≤ x then d :: x :: xs else x :: insertSorted d xs

/-- Insertion sort on a list of dates. -/
def sortDates (l : List ℕ) : List ℕ := l.foldr insertSorted []

/-- Model of `sorted(df[date].unique())` (`volatility_predictor.py` line 64): the
distinct dates of the surface in increasing order. -/
def uniqueDates (rows : List Row) : List ℕ :=
  sortDates ((rows.map Row.date).dedup)

/-- The rows of a given date: `grouped.get_group(date)`. -/
def rowsOn (rows : List Row) (d : ℕ) : List Row :=
  rows.filter (fun r => r.date = d)

/-- Model of `day_data[:, 0].mean()`: the mean implied vol of one date
(`volatility_predictor.py` line 73). -/
def dailyIV (rows : List Row) (d : ℕ) : ℚ :=
  ((rowsOn rows d).map Row.implied_vol).sum / ((rowsOn rows d).length : ℚ)

/-- Model of `day_data[:, 1].sum()`: the total volume of one date
(`volatility_predictor.py` line 74). -/
def dailyVolume (rows : List Row) (d : ℕ) : ℚ :=
  ((rowsOn rows d).map Row.volume).sum

/-- Model of `VolatilityPredictor.prepare_data` (`volatility_predictor.py` lines
48-90): for `i in range(len(dates) - sequence_length - 1)` build
`sequence_data` by extending with the pair (mean IV, total volume) of
each of the `sequence_length` days starting at `i`, and pair it with the
mean IV of day `i + sequence_length` as the target.  Python `range` of a
negative bound is empty, matching truncated natural subtraction. -/
def prepareData (rows : List Row) (L : ℕ) : List (List ℚ × ℚ) :=
  (List.range ((uniqueDates rows).length - (L + 1))).map (fun i =>
    ((List.range L).foldl (fun acc j =>
        acc ++ [dailyIV rows ((uniqueDates rows).getD (i + j) 0),
                dailyVolume rows ((uniqueDates rows).getD (i + j) 0)]) [],
     dailyIV rows ((uniqueDates rows).getD (i + L) 0)))

/-- Model of `df[implied_vol].mean()` over the whole surface
(`volatility_predictor.py` line 233). -/
def currentAvgIV (rows : List Row) : ℚ :=
  ((rows.map Row.implied_vol).sum) / (rows.length : ℚ)

/-- The `scaler` attribute of a `VolatilityPredictor`: a `MinMaxScaler`
that is either freshly constructed (unfitted — calling `transform` on it
raises) or fitted with a concrete transform. -/
inductive VolScaler where
  | unfitted
  | fitted (transform : List ℚ → List ℚ)

/-- Whether the scaler has been fitted. -/
def VolScaler.isFitted : VolScaler → Bool
  | .unfitted => false
  | .fitted _ => true

/-- In-memory state of a `VolatilityPredictor` object: the loaded Keras
model (a function from the scaled window to the predicted IV), the
scaler and the `is_trained` flag. -/
structure VolPredictorState where
  model : Option (List ℚ → ℚ)
  scaler : VolScaler
  is_trained : Bool

/-- Result dictionary returned by `VolatilityPredictor.predict`
(`volatility_predictor.py` lines 235-240). -/
structure VolResult where
  current_avg_iv : ℚ
  predicted_avg_iv : ℚ
  change_percent : ℚ
  direction : String
deriving DecidableEq, Repr

/-- Model of `VolatilityPredictor.predict` (`volatility_predictor.py` lines
212-242): check `is_trained`, re-run `prepare_data`, raise when it
yields zero windows, take the most recent window `X[-1:]`, transform
(an unfitted `MinMaxScaler` raises `NotFittedError`), run the model and
compare against the mean IV of the whole input surface. -/
def volPredict (st : VolPredictorState) (rows : List Row) (L : ℕ) :
    Except String VolResult :=
  if st.is_trained = false then
    .error "Model not trained. Call train() first."
  else
    let X := prepareData rows L
    if X.length = 0 then
      .error "Not enough data for prediction"
    else
      match st.scaler with
      | .unfitted => .error "NotFittedError: MinMaxScaler is not fitted"
      | .fitted tr =>
        match st.model with
        | none => .error "AttributeError: model is None"
        | some f =>
          let recent := (X.map Prod.fst).getLastD []
          let predicted := f (tr recent)
          let current := currentAvgIV rows
          .ok { current_avg_iv := current,
                predicted_avg_iv := predicted,
                change_percent := (predicted - current) / current * 100,
                direction := if current < predicted then "UP" else "DOWN" }

/-! ## Persisted artifact store and the loader constructors.
The on-disk state is a map from path to file content; `joblib.load` /
`tf.keras.models.load_model` succeed only on a file of the right kind
(anything else — absent or unreadable file, wrong payload — raises,
modelled by the non-matching cases). -/

/-- Content of one artifact file on disk.  `corrupt` stands for an
existing but unreadable/garbage file. -/
inductive FileData where
  | rfModel (m : RFModel)
  | stdScaler (s : Scaler)
  | kerasModel (f : List ℚ → ℚ)
  | mmScaler (t : List ℚ → List ℚ)
  | corrupt

/-- The on-disk state: path to optional file content. -/
abbrev Disk := String → Option FileData

/-- Model of `joblib.load` of the classifier model file: succeeds only on a
pickled `RandomForestClassifier`. -/
def loadRF (disk : Disk) (p : String) : Option RFModel :=
  match disk p with
  | some (.rfModel m) => some m
  | _ => none

/-- Model of `joblib.load` of the classifier scaler file. -/
def loadStd (disk : Disk) (p : String) : Option Scaler :=
  match disk p with
  | some (.stdScaler s) => some s
  | _ => none

/-- Model of `tf.keras.models.load_model` of the forecaster model file. -/
def loadKeras (disk : Disk) (p : String) : Option (List ℚ → ℚ) :=
  match disk p with
  | some (.kerasModel f) => some f
  | _ => none

/-- Model of `joblib.load` of the forecaster scaler file. -/
def loadMM (disk : Disk) (p : String) : Option (List ℚ → List ℚ) :=
  match disk p with
  | some (.mmScaler t) => some t
  | _ => none

/-- Outcome of running a constructor: the resulting object state and
whether an exception escaped to the caller. -/
structure SignalInitOutcome where
  state : SignalClassifier
  raised : Bool

/-- Model of `SignalClassifier.__init__` (`signal_classifier.py` lines 29-46)
with model path `mp` and scaler path `sp` (in the source
`sp = mp.replace(".pkl", "_scaler.pkl")`): if the model file exists,
`try` to load the model and then the scaler, setting `is_trained` only
after both succeed; every exception is caught by the bare `except`
(which at most prints a warning), so nothing is raised to the caller. -/
def signalInit (disk : Disk) (mp sp : String) : SignalInitOutcome :=
  if (disk mp).isSome then
    match loadRF disk mp with
    | none => ⟨⟨none, none, false⟩, false⟩
    | some m =>
      match loadStd disk sp with
      | none => ⟨⟨some m, none, false⟩, false⟩
      | some s => ⟨⟨some m, some s, true⟩, false⟩
  else ⟨⟨none, none, false⟩, false⟩

/-- Outcome of the forecaster constructor. -/
structure VolInitOutcome where
  state : VolPredictorState
  raised : Bool

/-- Model of `VolatilityPredictor.__init__` (`volatility_predictor.py` lines
29-46): `self.scaler = MinMaxScaler()` (unfitted); if the model file
exists, `try` to load the model, then load the scaler ONLY if its file
exists, then set `is_trained = True` — so a present model with an
absent scaler file still yields `is_trained = True` with the unfitted
scaler; exceptions are caught by the bare `except`. -/
def volInit (disk : Disk) (mp sp : String) : VolInitOutcome :=
  if (disk mp).isSome then
    match loadKeras disk mp with
    | none => ⟨⟨none, .unfitted, false⟩, false⟩
    | some f =>
      if (disk sp).isSome then
        match loadMM disk sp with
        | none => ⟨⟨some f, .unfitted, false⟩, false⟩
        | some t => ⟨⟨some f, .fitted t, true⟩, false⟩
      else ⟨⟨some f, .unfitted, true⟩, false⟩
  else ⟨⟨none, .unfitted, false⟩, false⟩

/-- The persistence step of `SignalClassifier.train`
(`signal_classifier.py` lines 133-136): `joblib.dump` the model at the
model path and the scaler at the companion scaler path. -/
def saveArtifacts (disk : Disk) (mp sp : String) (m : RFModel) (s : Scaler) : Disk :=
  fun p =>
    if p = mp then some (.rfModel m)
    else if p = sp then some (.stdScaler s)
    else disk p

/-! ## Concrete objects used by counterexamples and witnesses. -/

/-- A concrete fitted random forest model (constant probability 1). -/
def exModel : RFModel :=
  { predictProba1 := fun _ => 1, predictLabel := fun _ => true }

/-- A concrete fitted scaler (the identity transform). -/
def exScaler : Scaler := { transform := fun x => x }

/-- A concrete trained classifier state (as left in memory by `train`). -/
def exClassifier : SignalClassifier :=
  { model := some exModel, scaler := some exScaler, is_trained := true }

/-- A concrete input record with the 8 required fields (integer-valued,
in the shape of the module docstring example). -/
def exInput : FeatureMap :=
  [("edge_percent", 15), ("delta", 1), ("gamma", 0),
   ("vega", 45), ("theta", -8), ("volume", 1200),
   ("open_interest", 8500), ("days_to_expiry", 45)]

/-- The same record with its fields listed in a different order. -/
def exInputPermuted : FeatureMap :=
  [("days_to_expiry", 45), ("volume", 1200), ("edge_percent", 15),
   ("theta", -8), ("delta", 1), ("open_interest", 8500),
   ("gamma", 0), ("vega", 45)]

/-- The example record extended with extra, non-feature keys. -/
def exInputExtra : FeatureMap :=
  [("symbol_id", 7), ("edge_percent", 15), ("delta", 1),
   ("gamma", 0), ("vega", 45), ("theta", -8),
   ("volume", 1200), ("open_interest", 8500), ("days_to_expiry", 45),
   ("spot_price", 100)]

/-- A surface with exactly 5 distinct dates (one strike per day). -/
def c3surface : List Row :=
  [⟨0, 100, 3/10, 10⟩, ⟨1, 100, 31/100, 12⟩, ⟨2, 100, 32/100, 9⟩,
   ⟨3, 100, 33/100, 11⟩, ⟨4, 100, 34/100, 8⟩]

/-- A concrete trained forecaster state. -/
def exVolState : VolPredictorState :=
  { model := some (fun _ => 1/2), scaler := .fitted (fun x => x),
    is_trained := true }

/-- A surface with 3 distinct dates. -/
def c9rowsA : List Row :=
  [⟨0, 100, 1, 5⟩, ⟨1, 100, 2, 5⟩, ⟨2, 100, 3, 5⟩]

/-- The same surface with the implied vols of the two most recent dates
changed. -/
def c9rowsB : List Row :=
  [⟨0, 100, 1, 5⟩, ⟨1, 100, 20, 5⟩, ⟨2, 100, 30, 5⟩]

/-- A disk holding only a forecaster model file (no companion scaler). -/
def c4disk : Disk :=
  fun p => if p = "models/volatility_predictor.h5"
           then some (.kerasModel (fun _ => 2/5)) else none

/-- A disk holding only a classifier model file (no companion scaler). -/
def c4diskC : Disk :=
  fun p => if p = "models/signal_classifier.pkl"
           then some (.rfModel exModel) else none

/-- A NaN-liquidity options chain row with valid bid/ask. -/
def exNaNRow : RawOptionRow :=
  { strike := .num 100, bid := .num 5, ask := .num 6,
    volume := .nan, openInterest := .nan }

/-- The JSON entry produced from `exNaNRow`. -/
def exNaNEntry : OptionEntry :=
  { strike := .num 100, bid := .num 5, ask := .num 6,
    volume := 0, open_interest := 0, option_type := "Call" }

/-- A disk with no artifact files. -/
def emptyDisk : Disk := fun _ => none

end DollarBill

namespace DollarBill

/-! ## Theorems -/

/-- Dictionary lookup is stable under permuting the entries of a record
whose keys are distinct. -/
theorem plookup_perm (k : String) {m₁ m₂ : FeatureMap} (h : m₁.Perm m₂)
    (nd : (m₁.map Prod.fst).Nodup) : plookup k m₁ = plookup k m₂ := by
  induction h with
  | nil => rfl
  | cons x h ih =>
    obtain ⟨a, v⟩ := x
    simp only [plookup]
    split
    · rfl
    · exact ih (List.Nodup.of_cons (by simpa using nd))
  | swap x y l =>
    obtain ⟨a, v⟩ := x
    obtain ⟨b, w⟩ := y
    have hba : b ≠ a := by
      simp only [List.map_cons, List.nodup_cons, List.mem_cons] at nd
      exact fun hba => nd.1 (Or.inl hba)
    simp only [plookup]
    by_cases h1 : b = k <;> by_cases h2 : a = k <;>
      simp [h1, h2]
    exact absurd (h1.trans h2.symm) hba
  | trans h₁ h₂ ih₁ ih₂ =>
    exact (ih₁ nd).trans (ih₂ (((h₁.map Prod.fst).nodup_iff).mp nd))

/-- Column selection depends on the record only through the looked-up
keys. -/
theorem seqLookup_congr (ks : List String) (m₁ m₂ : FeatureMap)
    (h : ∀ k ∈ ks, plookup k m₁ = plookup k m₂) :
    seqLookup ks m₁ = seqLookup ks m₂ := by
  induction ks with
  | nil => rfl
  | cons k ks ih =>
    simp only [seqLookup]
    rw [h k (List.mem_cons_self k ks),
        ih (fun a ha => h a (List.mem_cons_of_mem _ ha))]

/-- Claim C8: feature values are bound by field name, not by position —
for a record with distinct keys, permuting the listed order of the
fields leaves the prediction unchanged. -/
theorem fields_bound_by_name (c : SignalClassifier) (m₁ m₂ : FeatureMap)
    (hperm : m₁.Perm m₂) (hnd : (m₁.map Prod.fst).Nodup) :
    predictC c m₁ = predictC c m₂ := by
  unfold predictC
  rw [show extractFeatures m₁ = extractFeatures m₂ from
    seqLookup_congr featureCols m₁ m₂ (fun k _ => plookup_perm k hperm hnd)]

/-- Witness for C8: the docstring input record and a permutation of its
fields give the same prediction. -/
theorem fields_bound_by_name_witness :
    predictC exClassifier exInput = predictC exClassifier exInputPermuted :=
  fields_bound_by_name exClassifier exInput exInputPermuted
    (List.isPerm_iff.mp (by decide)) (by decide)

/-- Lookup of a required key is unchanged by dropping the entries whose
key is not a feature column. -/
theorem plookup_filter (k : String) (hk : k ∈ featureCols) (m : FeatureMap) :
    plookup k (restrictToFeatures m) = plookup k m := by
  induction m with
  | nil => rfl
  | cons kv rest ih =>
    obtain ⟨a, v⟩ := kv
    by_cases hak : a = k
    · subst hak
      simp [restrictToFeatures, List.filter_cons, hk, plookup]
    · by_cases hmem : a ∈ featureCols
      · simpa [restrictToFeatures, List.filter_cons, hmem, plookup, hak]
          using ih
      · simpa [restrictToFeatures, List.filter_cons, hmem, plookup, hak]
          using ih

/-- Claim C10: predict ignores extra input fields — the prediction on a
record equals the prediction on its restriction to the 8 feature
columns. -/
theorem classifier_ignores_extra_fields (c : SignalClassifier) (m : FeatureMap) :
    predictC c m = predictC c (restrictToFeatures m) := by
  unfold predictC
  rw [show extractFeatures (restrictToFeatures m) = extractFeatures m from
    seqLookup_congr featureCols _ m (fun k hk => plookup_filter k hk m)]

/-- Claim C7: the synthetic training data generator reseeds the global
generator with the fixed seed 42 as its first step, so two runs with
the same sample count produce identical corpora regardless of the
ambient random state. -/
theorem generator_deterministic (s₁ s₂ : RngState) (n : ℕ) :
    generateTrainingData s₁ n = generateTrainingData s₂ n := rfl

/-- Claim C1: whenever predict succeeds, the recommendation is TRADE
exactly when the returned confidence is strictly greater than 0.7; at
exactly 0.7 the recommendation is AVOID. -/
theorem trade_iff_confidence_above_threshold
    (c : SignalClassifier) (inp : FeatureMap) (r : ClassResult)
    (h : predictC c inp = .ok r) :
    (r.recommendation = "TRADE" ↔ 7/10 < r.confidence) ∧
    (r.confidence = 7/10 → r.recommendation = "AVOID") := by
  unfold predictC at h
  split at h
  · exact absurd h (by simp)
  · split at h
    · exact absurd h (by simp)
    next feats hfe =>
      split at h
      · exact absurd h (by simp)
      next sc hsc =>
        split at h
        · exact absurd h (by simp)
        next mdl hmd =>
          injection h with h
          subst h
          dsimp only
          constructor
          · by_cases hp : (7:ℚ)/10 < mdl.predictProba1 (sc.transform feats)
            · rw [if_pos hp]
              exact iff_of_true rfl hp
            · rw [if_neg hp]
              exact iff_of_false (by decide) hp
          · intro heq
            rw [heq, if_neg (lt_irrefl _)]

/-- Witness for C1: the concrete trained classifier on the example
record succeeds, and the threshold law holds for its result. -/
theorem trade_iff_confidence_above_threshold_witness :
    predictC exClassifier exInput
      = .ok { is_profitable := true, confidence := 1, recommendation := "TRADE" } ∧
    (({ is_profitable := true, confidence := 1,
        recommendation := "TRADE" } : ClassResult).recommendation = "TRADE"
      ↔ 7/10 < ({ is_profitable := true, confidence := 1,
                  recommendation := "TRADE" } : ClassResult).confidence) := by
  have h2 : predictC exClassifier exInput
      = .ok { is_profitable := true, confidence := 1,
              recommendation := if (7:ℚ)/10 < 1 then "TRADE" else "AVOID" } := rfl
  have h : predictC exClassifier exInput
      = .ok { is_profitable := true, confidence := 1, recommendation := "TRADE" } := by
    rw [h2, if_pos (by norm_num : (7:ℚ)/10 < 1)]
  exact ⟨h, (trade_iff_confidence_above_threshold exClassifier exInput _ h).1⟩

/-- Unrolling of the window-building foldl into a flat concatenation. -/
theorem foldl_pairs (f g : ℕ → ℚ) (L : ℕ) (acc : List ℚ) :
    (List.range L).foldl (fun acc j => acc ++ [f j, g j]) acc
      = acc ++ (List.range L).flatMap (fun j => [f j, g j]) := by
  induction L generalizing acc with
  | zero => simp
  | succ n ih =>
    rw [List.range_succ, List.foldl_append, ih, List.flatMap_append]
    simp

/-- Length of one concatenated window: two entries per day. -/
theorem flatMap_pairs_length (f g : ℕ → ℚ) (L : ℕ) :
    ((List.range L).flatMap (fun j => [f j, g j])).length = 2 * L := by
  induction L with
  | zero => rfl
  | succ n ih =>
    rw [List.range_succ, List.flatMap_append, List.length_append, ih]
    simp [List.flatMap_cons]
    omega

/-- Element formula for the windower output. -/
theorem prepareData_get (rows : List Row) (L i : ℕ)
    (h : i < (prepareData rows L).length) :
    (prepareData rows L).get ⟨i, h⟩
      = ((List.range L).flatMap (fun j =>
           [dailyIV rows ((uniqueDates rows).getD (i + j) 0),
            dailyVolume rows ((uniqueDates rows).getD (i + j) 0)]),
         dailyIV rows ((uniqueDates rows).getD (i + L) 0)) := by
  unfold prepareData at h ⊢
  rw [List.get_eq_getElem, List.getElem_map, List.getElem_range]
  rw [foldl_pairs (fun j => dailyIV rows ((uniqueDates rows).getD (i + j) 0))
        (fun j => dailyVolume rows ((uniqueDates rows).getD (i + j) 0)) L []]
  simp

/-- Claim C2: the Sequence Windower produces exactly max(0, D - L - 1)
windows for a surface with D distinct dates and window length L; each
window is a feature vector of length 2L concatenating the (mean implied
vol, summed volume) pairs of L consecutive days, and its target is the
mean implied vol of the day following the window. -/
theorem windower_count_and_shape (rows : List Row) (L : ℕ) :
    (((prepareData rows L).length : ℤ)
       = max 0 (((uniqueDates rows).length : ℤ) - L - 1)) ∧
    (∀ w ∈ prepareData rows L, w.1.length = 2 * L) ∧
    (∀ i (h : i < (prepareData rows L).length),
      (prepareData rows L).get ⟨i, h⟩
        = ((List.range L).flatMap (fun j =>
             [dailyIV rows ((uniqueDates rows).getD (i + j) 0),
              dailyVolume rows ((uniqueDates rows).getD (i + j) 0)]),
           dailyIV rows ((uniqueDates rows).getD (i + L) 0))) := by
  have hlen : (prepareData rows L).length
      = (uniqueDates rows).length - (L + 1) := by
    simp [prepareData]
  refine ⟨?_, ?_, fun i h => prepareData_get rows L i h⟩
  · rw [hlen]; omega
  · intro w hw
    obtain ⟨⟨i, hi⟩, rfl⟩ := List.mem_iff_get.mp hw
    rw [prepareData_get rows L i hi]
    exact flatMap_pairs_length _ _ L

/-- Witness for C2 at the 5-date surface with window length 2. -/
theorem windower_count_and_shape_witness :
    (((prepareData c3surface 2).length : ℤ)
       = max 0 (((uniqueDates c3surface).length : ℤ) - 2 - 1)) ∧
    (prepareData c3surface 2).get ⟨0, by decide⟩
      = ((List.range 2).flatMap (fun j =>
           [dailyIV c3surface ((uniqueDates c3surface).getD (0 + j) 0),
            dailyVolume c3surface ((uniqueDates c3surface).getD (0 + j) 0)]),
         dailyIV c3surface ((uniqueDates c3surface).getD (0 + 2) 0)) :=
  ⟨(windower_count_and_shape c3surface 2).1,
   (windower_count_and_shape c3surface 2).2.2 0 (by decide)⟩

/-- Counterexample to claim C3: a surface with 5 distinct dates and
window length 10 makes prepare_data return an EMPTY window list — an
empty result, not a raised DataError. -/
theorem windower_five_dates_returns_empty :
    prepareData c3surface 10 = [] ∧ (uniqueDates c3surface).length = 5 :=
  ⟨rfl, rfl⟩

/-- Claim C3 (amended): with fewer than L+2 distinct dates the windower
returns zero windows, and it is the forecaster predict — not
prepare_data — that fails with the insufficient-data error. -/
theorem windower_insufficient_data (rows : List Row) (L : ℕ)
    (st : VolPredictorState) (hst : st.is_trained = true)
    (hD : (uniqueDates rows).length < L + 2) :
    prepareData rows L = [] ∧
    volPredict st rows L = .error "Not enough data for prediction" := by
  have hempty : prepareData rows L = [] := by
    unfold prepareData
    rw [show (uniqueDates rows).length - (L + 1) = 0 from by omega]
    rfl
  refine ⟨hempty, ?_⟩
  simp [volPredict, hst, hempty]

/-- Witness for the amended C3 at the 5-date surface with window length
10 and a trained forecaster. -/
theorem windower_insufficient_data_witness :
    prepareData c3surface 10 = [] ∧
    volPredict exVolState c3surface 10
      = .error "Not enough data for prediction" :=
  windower_insufficient_data c3surface 10 exVolState rfl (by decide)

/-- Counterexample to claim C4: with the forecaster model file on disk
and the companion transform file absent, the constructor surfaces no
error and even marks the service trained, with an unfitted transform. -/
theorem load_without_transform_not_an_error :
    (c4disk "models/volatility_predictor.h5").isSome = true ∧
    c4disk "models/volatility_predictor_scaler.pkl" = none ∧
    (volInit c4disk "models/volatility_predictor.h5"
        "models/volatility_predictor_scaler.pkl").raised = false ∧
    (volInit c4disk "models/volatility_predictor.h5"
        "models/volatility_predictor_scaler.pkl").state.is_trained = true ∧
    ((volInit c4disk "models/volatility_predictor.h5"
        "models/volatility_predictor_scaler.pkl").state.scaler).isFitted = false :=
  ⟨rfl, rfl, rfl, rfl, rfl⟩

/-- Claim C4 (amended): constructor load failures are caught internally
and never surfaced to the caller; the classifier becomes trained only
with both the model and the fitted transform loaded and refuses to
score otherwise, while the forecaster tolerates a missing transform
file — it loads the model alone and marks itself trained with an
unfitted transform. -/
theorem artifact_loading_behaviour (disk : Disk) (mp sp : String) :
    ((signalInit disk mp sp).raised = false) ∧
    ((volInit disk mp sp).raised = false) ∧
    ((signalInit disk mp sp).state.is_trained = true →
      ((signalInit disk mp sp).state.model.isSome = true ∧
       (signalInit disk mp sp).state.scaler.isSome = true)) ∧
    (∀ inp, (signalInit disk mp sp).state.is_trained = false →
      predictC (signalInit disk mp sp).state inp
        = .error "Model not trained. Call train() first.") ∧
    (∀ f, disk mp = some (.kerasModel f) → disk sp = none →
      ((volInit disk mp sp).state.is_trained = true ∧
       ((volInit disk mp sp).state.scaler).isFitted = false)) := by
  refine ⟨?_, ?_, ?_, ?_, ?_⟩
  · unfold signalInit
    split
    · split
      · rfl
      · split
        · rfl
        · rfl
    · rfl
  · unfold volInit
    split
    · split
      · rfl
      · split
        · split
          · rfl
          · rfl
        · rfl
    · rfl
  · unfold signalInit
    split
    · split
      · intro h; exact absurd h (by simp)
      · split
        · intro h; exact absurd h (by simp)
        · intro _; exact ⟨rfl, rfl⟩
    · intro h; exact absurd h (by simp)
  · intro inp h
    simp [predictC, h]
  · intro f hmp hsp
    simp [volInit, loadKeras, hmp, hsp, VolScaler.isFitted]

/-- Witness for the amended C4: concrete disks exercising both loaders
with a present model file and an absent transform file. -/
theorem artifact_loading_behaviour_witness :
    ((signalInit c4diskC "models/signal_classifier.pkl"
        "models/signal_classifier_scaler.pkl").raised = false) ∧
    ((volInit c4disk "models/volatility_predictor.h5"
        "models/volatility_predictor_scaler.pkl").state.is_trained = true) ∧
    (predictC (signalInit c4diskC "models/signal_classifier.pkl"
        "models/signal_classifier_scaler.pkl").state exInput
      = .error "Model not trained. Call train() first.") := by
  refine ⟨(artifact_loading_behaviour c4diskC "models/signal_classifier.pkl"
      "models/signal_classifier_scaler.pkl").1, ?_, ?_⟩
  · exact ((artifact_loading_behaviour c4disk "models/volatility_predictor.h5"
      "models/volatility_predictor_scaler.pkl").2.2.2.2 (fun _ => 2/5) rfl rfl).1
  · exact (artifact_loading_behaviour c4diskC "models/signal_classifier.pkl"
      "models/signal_classifier_scaler.pkl").2.2.2.1 exInput rfl

/-- Claim C5: during feature construction from upstream market data, a
NaN liquidity value (volume, open interest) is replaced by zero — and
only defaulted when NaN; the remaining fields pass through unchanged,
and a trained classifier then scores the assembled record without
error. -/
theorem nan_liquidity_defaults_to_zero (r : RawOptionRow) (typ : String)
    (e : OptionEntry) (h : processOptionRow r typ = some e) :
    (r.volume = .nan → e.volume = 0) ∧
    (r.openInterest = .nan → e.open_interest = 0) ∧
    (∀ q, r.volume = .num q → e.volume = pyInt (.num q)) ∧
    (∀ q, r.openInterest = .num q → e.open_interest = pyInt (.num q)) ∧
    (e.strike = r.strike ∧ e.bid = r.bid ∧ e.ask = r.ask) ∧
    (∀ (mdl : RFModel) (sc : Scaler) (edge delta gamma vega theta dte : ℚ),
      (predictC { model := some mdl, scaler := some sc, is_trained := true }
          (mkSignalFeatures edge delta gamma vega theta dte e)).isOk = true) := by
  unfold processOptionRow at h
  split at h
  · injection h with h
    subst h
    refine ⟨?_, ?_, ?_, ?_, ⟨rfl, rfl, rfl⟩, ?_⟩
    · intro hv; simp [pyEq, hv]
    · intro hv; simp [pyEq, hv]
    · intro q hv; simp [pyEq, hv]
    · intro q hv; simp [pyEq, hv]
    · intro mdl sc edge delta gamma vega theta dte
      rfl
  · exact absurd h (by simp)

/-- Witness for C5: the concrete NaN-liquidity options row becomes an
entry with zero liquidity fields and scores without error. -/
theorem nan_liquidity_defaults_to_zero_witness :
    processOptionRow exNaNRow "Call" = some exNaNEntry ∧
    exNaNEntry.volume = 0 ∧ exNaNEntry.open_interest = 0 ∧
    (predictC exClassifier
        (mkSignalFeatures 15 1 0 45 (-8) 45 exNaNEntry)).isOk = true := by
  have h : processOptionRow exNaNRow "Call" = some exNaNEntry := rfl
  have main := nan_liquidity_defaults_to_zero exNaNRow "Call" exNaNEntry h
  exact ⟨h, main.1 rfl, main.2.1 rfl,
    main.2.2.2.2.2 exModel exScaler 15 1 0 45 (-8) 45⟩

/-- Claim C6: round-trip persistence — saving the trained model and its
transform, reloading them into a fresh service at the same paths, and
predicting on the same input yields exactly the pre-save prediction. -/
theorem persistence_roundtrip (disk : Disk) (mp sp : String)
    (mdl : RFModel) (sc : Scaler) (inp : FeatureMap) (hne : mp ≠ sp) :
    predictC (signalInit (saveArtifacts disk mp sp mdl sc) mp sp).state inp
      = predictC { model := some mdl, scaler := some sc, is_trained := true } inp := by
  have hinit : (signalInit (saveArtifacts disk mp sp mdl sc) mp sp).state
      = { model := some mdl, scaler := some sc, is_trained := true } := by
    simp [signalInit, saveArtifacts, loadRF, loadStd, Ne.symm hne]
  rw [hinit]

/-- Congruence for flat concatenation over a list of day indices. -/
theorem flatMap_congr {l : List ℕ} {f g : ℕ → List ℚ}
    (h : ∀ a ∈ l, f a = g a) : l.flatMap f = l.flatMap g := by
  induction l with
  | nil => rfl
  | cons a l ih =>
    rw [List.flatMap_cons, List.flatMap_cons, h a (List.mem_cons_self a l),
        ih (fun b hb => h b (List.mem_cons_of_mem _ hb))]

/-- Claim C9: for a surface with at least L+2 distinct dates, the last
window the Windower produces — the most recent sequence used by the
forecaster predict — covers the dates at indices D-L-2 through D-3
(target at index D-2); the daily aggregates of the two most recent
dates never enter any window's features (two surfaces with the same
dates agreeing on all days up to index D-3 yield identical feature
vectors), although they do change the reported current average implied
vol, as the concrete pair `c9rowsA`/`c9rowsB` shows. -/
theorem recent_days_excluded_from_features :
    (∀ (rows rows2 : List Row) (L : ℕ),
      L + 2 ≤ (uniqueDates rows).length →
      uniqueDates rows2 = uniqueDates rows →
      (∀ k, k + 3 ≤ (uniqueDates rows).length →
        dailyIV rows2 ((uniqueDates rows).getD k 0)
            = dailyIV rows ((uniqueDates rows).getD k 0) ∧
        dailyVolume rows2 ((uniqueDates rows).getD k 0)
            = dailyVolume rows ((uniqueDates rows).getD k 0)) →
      ((prepareData rows2 L).map Prod.fst = (prepareData rows L).map Prod.fst ∧
       (prepareData rows L).getLast?
         = some ((List.range L).flatMap (fun j =>
             [dailyIV rows ((uniqueDates rows).getD
                 ((uniqueDates rows).length - L - 2 + j) 0),
              dailyVolume rows ((uniqueDates rows).getD
                 ((uniqueDates rows).length - L - 2 + j) 0)]),
           dailyIV rows ((uniqueDates rows).getD
               ((uniqueDates rows).length - 2) 0)))) ∧
    (currentAvgIV c9rowsA ≠ currentAvgIV c9rowsB ∧
     uniqueDates c9rowsB = uniqueDates c9rowsA ∧
     (prepareData c9rowsB 1).map Prod.fst
       = (prepareData c9rowsA 1).map Prod.fst) := by
  constructor
  · intro rows rows2 L hD h2 hagree
    constructor
    · unfold prepareData
      rw [h2, List.map_map, List.map_map]
      apply List.map_congr_left
      intro i hi
      have hi2 := List.mem_range.mp hi
      simp only [Function.comp]
      rw [foldl_pairs (fun j => dailyIV rows2 ((uniqueDates rows).getD (i + j) 0))
            (fun j => dailyVolume rows2 ((uniqueDates rows).getD (i + j) 0)) L [],
          foldl_pairs (fun j => dailyIV rows ((uniqueDates rows).getD (i + j) 0))
            (fun j => dailyVolume rows ((uniqueDates rows).getD (i + j) 0)) L []]
      simp only [List.nil_append]
      apply flatMap_congr
      intro j hj
      have hj2 := List.mem_range.mp hj
      have hij : (i + j) + 3 ≤ (uniqueDates rows).length := by omega
      rw [(hagree (i + j) hij).1, (hagree (i + j) hij).2]
    · have hlen : (prepareData rows L).length
          = (uniqueDates rows).length - (L + 1) := by
        simp [prepareData]
      rw [List.getLast?_eq_getElem?, hlen]
      unfold prepareData
      rw [List.getElem?_map, List.getElem?_range (by omega), Option.map_some']
      rw [foldl_pairs (fun j => dailyIV rows
            ((uniqueDates rows).getD ((uniqueDates rows).length - (L + 1) - 1 + j) 0))
          (fun j => dailyVolume rows
            ((uniqueDates rows).getD ((uniqueDates rows).length - (L + 1) - 1 + j) 0)) L []]
      simp only [List.nil_append]
      rw [show (uniqueDates rows).length - (L + 1) - 1
            = (uniqueDates rows).length - L - 2 from by omega]
      rw [show (uniqueDates rows).length - L - 2 + L
            = (uniqueDates rows).length - 2 from by omega]
  · refine ⟨?_, by decide, rfl⟩
    norm_num [currentAvgIV, c9rowsA, c9rowsB]

/-- Witness for C9 at the concrete 3-date surfaces with window length 1. -/
theorem recent_days_excluded_from_features_witness :
    ((prepareData c9rowsB 1).map Prod.fst
       = (prepareData c9rowsA 1).map Prod.fst) ∧
    (prepareData c9rowsA 1).getLast?
      = some ((List.range 1).flatMap (fun j =>
          [dailyIV c9rowsA ((uniqueDates c9rowsA).getD
              ((uniqueDates c9rowsA).length - 1 - 2 + j) 0),
           dailyVolume c9rowsA ((uniqueDates c9rowsA).getD
              ((uniqueDates c9rowsA).length - 1 - 2 + j) 0)]),
        dailyIV c9rowsA ((uniqueDates c9rowsA).getD
            ((uniqueDates c9rowsA).length - 2) 0)) :=
  recent_days_excluded_from_features.1 c9rowsA c9rowsB 1
    (by decide) (by decide)
    (fun k hk => by
      have hk0 : k = 0 := by
        have hlen : (uniqueDates c9rowsA).length = 3 := by decide
        omega
      subst hk0
      exact ⟨rfl, rfl⟩)

/-- Witness for C6: the round trip at the real artifact paths with a
concrete model, transform and input. -/
theorem persistence_roundtrip_witness :
    predictC (signalInit (saveArtifacts emptyDisk "models/signal_classifier.pkl"
        "models/signal_classifier_scaler.pkl" exModel exScaler)
        "models/signal_classifier.pkl" "models/signal_classifier_scaler.pkl").state
        exInput
      = predictC exClassifier exInput :=
  persistence_roundtrip emptyDisk "models/signal_classifier.pkl"
    "models/signal_classifier_scaler.pkl" exModel exScaler exInput (by decide)

end DollarBill
